import Mathlib

/-!
Verification development for the OpenClaw WebUI relay server (`server.js`).

The server relays chat traffic between browser frontends and one or more
OpenClaw gateway services.  This file shallowly embeds the relay core:
device-auth assertion building (`buildDeviceAuthField`), the per-gateway
`GatewayClient` state (reconnect backoff, pending requests, run tracking,
event translation) and the frontend-facing control protocol
(`handleFrontendMsg`, the auth gate, filtered broadcast).

Strings are modelled as `List Char` (`Str`), JavaScript `Map`s as
association lists, and JavaScript truthiness of optional strings / numbers
explicitly.  Nondeterministic inputs of the real code (fresh request ids,
`Date.now()` timestamps) are passed in as parameters.  Logging, the actual
WebSocket transport and cryptographic signing are side effects outside the
embedding; where a definition elides such a side effect the doc comment
says so.
-/

/-- Strings of the embedded program, as lists of characters. -/
abbrev Str := List Char

/-- JavaScript truthiness of an optional string: `undefined` and the empty
string are falsy. -/
def strTruthy (o : Option Str) : Bool :=
  match o with
  | none => false
  | some s => !s.isEmpty

/-- JavaScript `a || d` for an optional string `a` and default string `d`:
returns `a`'s value when it is truthy, otherwise `d`. -/
def strOr (o : Option Str) (d : Str) : Str :=
  if strTruthy o then o.getD [] else d

/-- Lookup in an association list, mirroring `Map.get` (first matching key). -/
def lookupKey : List (Str × Str) → Str → Option Str
  | [], _ => none
  | p :: rest, k => if p.1 = k then some p.2 else lookupKey rest k

/-- Removal from an association list, mirroring `Map.delete`. -/
def eraseKey : List (Str × Str) → Str → List (Str × Str)
  | [], _ => []
  | p :: rest, k => if p.1 = k then eraseKey rest k else p :: eraseKey rest k

/-- Insertion into an association list, mirroring `Map.set` (replaces any
existing binding of the key). -/
def setKey (l : List (Str × Str)) (k v : Str) : List (Str × Str) :=
  (k, v) :: eraseKey l k

/-- Decimal rendering of a natural number, for building default session
keys (`'webui:default_' + gwIdx`). -/
def natToStr (n : Nat) : Str := (toString n).data

/-- Decimal rendering of an integer (JavaScript number-to-string coercion
for the integer gateway indices the claims exercise). -/
def intToStr (n : Int) : Str := (toString n).data

-- ─────────────────────────────────────────────
-- Device identity / signed assertion (server.js lines 90–110)
-- ─────────────────────────────────────────────

/-- Device identity as loaded by `loadOrCreateDeviceIdentity`.  The PEM key
material is opaque here: `buildDeviceAuthField` only threads it to the
signing primitive, which is outside the embedding. -/
structure DeviceIdentity where
  deviceId : Str
deriving DecidableEq

/-- Payload segment list built by `buildDeviceAuthField` (server.js 90–99):
`[version, deviceId, clientId, clientMode, role, scopes, signedAtMs, token]`
with the nonce pushed as a ninth segment when the nonce is truthy.
`version` is `v2` when the nonce is truthy and `v1` otherwise; `token` is
`token || ''`.  `signedAtMs` is `Date.now()` at call time, passed in. -/
def buildAuthPayloadParts (identity : DeviceIdentity) (token : Option Str)
    (nonce : Option Str) (signedAtMs : Nat) : List Str :=
  let version := if strTruthy nonce then "v2".data else "v1".data
  let parts := [version, identity.deviceId, "gateway-client".data, "backend".data,
    "operator".data, "operator.admin".data, natToStr signedAtMs, token.getD []]
  if strTruthy nonce then parts ++ [nonce.getD []] else parts

/-- The signed payload string: the segments joined with `'|'`
(server.js line 99). -/
def buildAuthPayload (identity : DeviceIdentity) (token : Option Str)
    (nonce : Option Str) (signedAtMs : Nat) : Str :=
  List.intercalate ("|".data) (buildAuthPayloadParts identity token nonce signedAtMs)

/-- Result object of `buildDeviceAuthField` (server.js 102–109).  The
`publicKey` and `signature` members are base64url renderings of key
material and of the Ed25519 signature over `buildAuthPayload`; the
cryptographic values are outside the embedding and elided here, the
structurally checked members (`id`, `signedAt`, conditional `nonce`) are
kept. -/
structure DeviceAuthField where
  id : Str
  signedAt : Nat
  nonce : Option Str
deriving DecidableEq

/-- Field construction of `buildDeviceAuthField`: the `nonce` member is
attached exactly when the nonce argument is truthy (server.js 108). -/
def buildDeviceAuthField (identity : DeviceIdentity) (nonce : Option Str)
    (signedAtMs : Nat) : DeviceAuthField :=
  { id := identity.deviceId
    signedAt := signedAtMs
    nonce := if strTruthy nonce then nonce else none }

-- ─────────────────────────────────────────────
-- Attachments and gateway request content (server.js 2726–2776, 3052–3072)
-- ─────────────────────────────────────────────

/-- A frontend-supplied attachment `{ filename, mimeType, data, size }`.
`data` is the base64 payload (`[]` models a missing/empty `data`, which is
falsy); `mimeType` and `size` may be absent. -/
structure Attachment where
  filename : Str
  mimeType : Option Str
  data : Str
  size : Option Nat
deriving DecidableEq

/-- Server-side attachment size limit: `10 * 1024 * 1024` bytes
(server.js 3055). -/
def MAX_SIZE : Nat := 10 * 1024 * 1024

/-- Server-side MIME whitelist `ALLOWED_MIME_SRV` (server.js 3056–3060).
Membership is only consulted for a log line; it never rejects. -/
def ALLOWED_MIME_SRV : List Str :=
  ["image/png".data, "image/jpeg".data, "image/gif".data, "image/webp".data,
   "application/pdf".data, "text/plain".data, "text/markdown".data,
   "text/javascript".data, "text/typescript".data, "text/css".data,
   "application/json".data]

/-- JavaScript truthiness of the optional numeric `size` member. -/
def sizeTruthy (o : Option Nat) : Bool :=
  match o with
  | none => false
  | some n => n != 0

/-- The `attachments.filter` of the `send` handler (server.js 3061–3072):
drop an attachment without truthy `data`; drop it when its declared `size`
is truthy and exceeds `MAX_SIZE`; a MIME type outside `ALLOWED_MIME_SRV`
is only logged (`console.warn`) and the attachment is kept. -/
def validAttachments (atts : List Attachment) : List Attachment :=
  atts.filter (fun att =>
    if att.data.isEmpty then false
    else if sizeTruthy att.size && decide (MAX_SIZE < att.size.getD 0) then false
    else true)

/-- One element of the content-block array sent to the gateway
(server.js 2736–2759). -/
inductive ContentBlock where
  | text (t : Str)
  | image (mediaType : Str) (data : Str)
  | document (mediaType : Str) (data : Str) (title : Str)
deriving DecidableEq

/-- The `message` parameter of an `agent` request: a plain string when
there are no attachments, otherwise an ordered content-block array
(server.js 2733–2762). -/
inductive MsgContent where
  | plain (s : Str)
  | blocks (bs : List ContentBlock)
deriving DecidableEq

/-- Mapping of one attachment to its content block (server.js 2738–2758):
`image` when the MIME type is truthy and starts with `image/`, otherwise
`document` with media type `mimeType || 'application/octet-stream'` and
the filename as title. -/
def attBlock (att : Attachment) : ContentBlock :=
  if strTruthy att.mimeType && ("image/".data).isPrefixOf (att.mimeType.getD []) then
    ContentBlock.image (att.mimeType.getD []) att.data
  else
    ContentBlock.document (strOr att.mimeType ("application/octet-stream".data))
      att.data att.filename

/-- A request frame issued to the gateway.  Only the members the claims
inspect are modelled (`type` is always `req`; `params.agentId`,
`deliver` and `idempotencyKey` are elided). -/
structure GwReq where
  id : Str
  method : Str
  sessionKey : Option Str := none
  runId : Option Str := none
  content : Option MsgContent := none
deriving DecidableEq

-- ─────────────────────────────────────────────
-- GatewayClient state (server.js 2575–2907)
-- ─────────────────────────────────────────────

/-- Mutable state of one `GatewayClient`.  `hasWs` models `this.ws !== null`,
`wsOpen` models `this.ws.readyState === WebSocket.OPEN`; `pendingReqs` maps
request id to the recorded `sessionKey`, `runIds` maps session key to the
current run id.  `reconnectDelay` is exact in ℚ: every delay the JavaScript
code can reach is a dyadic rational represented exactly by its IEEE
double. -/
structure LinkState where
  idx : Nat
  hasWs : Bool
  wsOpen : Bool
  ready : Bool
  connected : Bool
  reconnectTimer : Bool
  reconnectDelay : ℚ
  pendingReqs : List (Str × Str)
  runIds : List (Str × Str)
deriving DecidableEq

/-- State right after the constructor's field initialisation
(server.js 2582–2596), before `connect()` runs. -/
def initLink (idx : Nat) : LinkState :=
  { idx := idx, hasWs := false, wsOpen := false, ready := false,
    connected := false, reconnectTimer := false, reconnectDelay := 2000,
    pendingReqs := [], runIds := [] }

/-- `scheduleReconnect` (server.js 2696–2703): a no-op when a reconnect
timer is already pending, otherwise arms the single timer.  The armed
timer's wait is the current `reconnectDelay` (read when `setTimeout` is
called). -/
def scheduleReconnect (st : LinkState) : LinkState :=
  if st.reconnectTimer then st else { st with reconnectTimer := true }

/-- Firing of the reconnect timer (server.js 2698–2702): clears the timer
and advances the delay to `min(reconnectDelay * 1.5, 30000)` before
calling `connect()`. -/
def timerFire (st : LinkState) : LinkState :=
  { st with reconnectTimer := false,
            reconnectDelay := min (st.reconnectDelay * (3 / 2 : ℚ)) 30000 }

/-- One failed reconnection cycle: schedule, then the timer fires (the
subsequent connect attempt fails and does not change the delay). -/
def reconnectCycle (st : LinkState) : LinkState := timerFire (scheduleReconnect st)

/-- The wait (ms) of the n-th reconnect timer armed after state `st`,
counting from 0: the `reconnectDelay` in force when the n-th
`scheduleReconnect` runs. -/
def nthReconnectWait (st : LinkState) (n : Nat) : ℚ :=
  (reconnectCycle^[n] st).reconnectDelay

/-- Successful handshake (`connect` response with `ok !== false`,
server.js 2662–2667): the link becomes ready/connected and the backoff
delay resets to the 2000 ms base. -/
def handshakeOk (st : LinkState) : LinkState :=
  { st with ready := true, connected := true, reconnectDelay := 2000 }

/-- Socket `close` handler (server.js 2681–2688): clears the connection
flags and the socket reference, then schedules a reconnect.
`pendingReqs` and `runIds` are left untouched. -/
def onClose (st : LinkState) : LinkState :=
  scheduleReconnect
    { st with connected := false, ready := false, hasWs := false, wsOpen := false }

/-- `GatewayClient.sendMessage` (server.js 2726–2776): records
`{sessionKey}` under the fresh request id in `pendingReqs` and builds the
`agent` request whose `message` is the plain text (no attachments) or the
content-block array.  The fresh id (`'req_' + Date.now() + random`) is
passed in as `reqId`.  The built frame is handed to `sendFrame`, which
transmits it only when the socket is open. -/
def sendMessage (st : LinkState) (reqId : Str) (sessionKey : Str)
    (message : Str) (attachments : List Attachment) : LinkState × GwReq :=
  let st' := { st with pendingReqs := setKey st.pendingReqs reqId sessionKey }
  let content :=
    if attachments.isEmpty then MsgContent.plain message
    else MsgContent.blocks (ContentBlock.text message :: attachments.map attBlock)
  (st', { id := reqId, method := "agent".data,
          sessionKey := some sessionKey, content := some content })

/-- `GatewayClient.cancelRun` (server.js 2782–2791): looks up
`runIds.get(sessionKey)`; when the stored value is falsy (absent key, or a
stored empty string) it returns without building a frame, otherwise it
builds the `agent.cancel` request carrying the stored run id.  The fresh
id suffix (`Date.now()`) is passed in as `cancelId`; the returned frame is
handed to `sendFrame`. -/
def cancelRun (st : LinkState) (cancelId : Str) (sessionKey : Str) : Option GwReq :=
  match lookupKey st.runIds sessionKey with
  | none => none
  | some runId =>
      if runId.isEmpty then none
      else some { id := "cancel_".data ++ cancelId, method := "agent.cancel".data,
                  sessionKey := some sessionKey, runId := some runId }

/-- A response frame from the gateway as inspected by `handleFrame`
(server.js 2798–2808): `okNotFalse` models `frame.ok !== false`,
`payloadRunId` models `frame.payload && frame.payload.runId`. -/
structure ResFrame where
  id : Str
  okNotFalse : Bool
  payloadRunId : Option Str
deriving DecidableEq

/-- Response branch of `GatewayClient.handleFrame` (server.js 2798–2808):
when a pending entry matches and the response is not a failure and carries
a truthy `runId`, record the run id under the pending entry's session key;
in every case delete the pending entry for the frame's id. -/
def handleResFrame (st : LinkState) (fr : ResFrame) : LinkState :=
  let st1 :=
    match lookupKey st.pendingReqs fr.id with
    | some sk =>
        if fr.okNotFalse && strTruthy fr.payloadRunId then
          { st with runIds := setKey st.runIds sk (fr.payloadRunId.getD []) }
        else st
    | none => st
  { st1 with pendingReqs := eraseKey st1.pendingReqs fr.id }

-- ─────────────────────────────────────────────
-- Agent event translation (server.js 2827–2894)
-- ─────────────────────────────────────────────

/-- The `data` member of a gateway `agent` event payload; every member may
be absent.  `argumentsJson`/`resultJson` stand for the opaque JSON values
forwarded verbatim. -/
structure AgentData where
  phase : Option Str := none
  message : Option Str := none
  delta : Option Str := none
  text : Option Str := none
  name : Option Str := none
  argumentsJson : Option Str := none
  resultJson : Option Str := none
deriving DecidableEq

/-- Payload of a gateway `agent` event:
`{ stream, data, runId, sessionKey }`, each possibly absent. -/
structure AgentPayload where
  stream : Option Str := none
  data : Option AgentData := none
  runId : Option Str := none
  sessionKey : Option Str := none
deriving DecidableEq

/-- The owning-agent namespace prefix the gateway attaches to session keys
(server.js 2832). -/
def agentNsPre : Str := "agent:main:".data

/-- Prefix stripping applied to inbound event session keys
(server.js 2831–2834): drop the leading `agent:main:` when present. -/
def stripAgentPre (s : Str) : Str :=
  if agentNsPre.isPrefixOf s then s.drop agentNsPre.length else s

/-- The gateway-side prefixing convention observed on inbound events: the
gateway qualifies a caller-supplied key with the owning-agent namespace. -/
def addAgentPre (k : Str) : Str := agentNsPre ++ k

/-- A server→frontend message.  Union of the member sets of all frames the
server sends (`init` payload lists elided; they carry static config). -/
structure OutMsg where
  type : Str
  gateway : Option Int := none
  sessionKey : Option Str := none
  phase : Option Str := none
  runId : Option Str := none
  text : Option Str := none
  message : Option Str := none
  name : Option Str := none
  argumentsJson : Option Str := none
  resultJson : Option Str := none
  connected : Option Bool := none
deriving DecidableEq

/-- JavaScript `(data && (data.delta || data.text)) || ''`
(server.js 2857, 2865). -/
def deltaOrText (data : Option AgentData) : Str :=
  match data with
  | none => []
  | some d => if strTruthy d.delta then d.delta.getD [] else d.text.getD []

/-- `GatewayClient.handleAgentEvent` (server.js 2827–2894): strips the
owning-agent prefix from the payload's session key, drops the event when
the stripped key or the stream is falsy, then demultiplexes by stream —
`lifecycle` records/clears the run id and always forwards a `lifecycle`
frame, `assistant`/`thinking` forward non-empty incremental text,
`tool` forwards `tool_start`/`tool_result`.  Returns the updated link
state and the frames handed to `onMsg` (broadcast). -/
def handleAgentEvent (st : LinkState) (payload : Option AgentPayload) :
    LinkState × List OutMsg :=
  match payload with
  | none => (st, [])
  | some p =>
    let sessionKey := stripAgentPre (p.sessionKey.getD [])
    if sessionKey.isEmpty || !strTruthy p.stream then (st, [])
    else if p.stream = some ("lifecycle".data) then
      let phase := match p.data with
        | none => none
        | some d => d.phase
      let st' :=
        if phase = some ("start".data) && strTruthy p.runId then
          { st with runIds := setKey st.runIds sessionKey (p.runId.getD []) }
        else if phase = some ("end".data) || phase = some ("cancelled".data) then
          { st with runIds := eraseKey st.runIds sessionKey }
        else st
      (st', [{ type := "lifecycle".data, gateway := some (st.idx : Int),
               sessionKey := some sessionKey, phase := phase, runId := p.runId,
               message := match p.data with
                 | none => none
                 | some d => d.message }])
    else if p.stream = some ("assistant".data) then
      let text := deltaOrText p.data
      if text.isEmpty then (st, [])
      else (st, [{ type := "chunk".data, gateway := some (st.idx : Int),
                   sessionKey := some sessionKey, text := some text }])
    else if p.stream = some ("thinking".data) then
      let text := deltaOrText p.data
      if text.isEmpty then (st, [])
      else (st, [{ type := "thinking".data, gateway := some (st.idx : Int),
                   sessionKey := some sessionKey, text := some text }])
    else if p.stream = some ("tool".data) then
      let phase := match p.data with
        | none => none
        | some d => d.phase
      if phase = some ("start".data) then
        (st, [{ type := "tool_start".data, gateway := some (st.idx : Int),
                sessionKey := some sessionKey,
                name := (p.data.getD {}).name,
                argumentsJson := (p.data.getD {}).argumentsJson }])
      else if phase = some ("result".data) then
        (st, [{ type := "tool_result".data, gateway := some (st.idx : Int),
                sessionKey := some sessionKey,
                name := (p.data.getD {}).name,
                resultJson := (p.data.getD {}).resultJson }])
      else (st, [])
    else (st, [])

-- ─────────────────────────────────────────────
-- Frontend connections and broadcast (server.js 2912–2930, 2949–3010)
-- ─────────────────────────────────────────────

/-- One frontend WebSocket connection: `isOpen` models
`readyState === WebSocket.OPEN`, `authenticated` models `_authenticated`,
`ownedSessions` models the `_ownedSessions` set (membership is what
matters; insertion keeps it duplicate-free). -/
structure FrontConn where
  isOpen : Bool
  authenticated : Bool
  ownedSessions : List Str
deriving DecidableEq

/-- The session-scoped frame kinds filtered per connection
(`SESSION_SCOPED_TYPES`, server.js 2920). -/
def sessionScopedTypes : List Str :=
  ["lifecycle".data, "chunk".data, "thinking".data, "tool_start".data,
   "tool_result".data]

/-- `broadcastToFrontend` (server.js 2914–2930): the sublist of registered
clients that receive `msg` — those with an open socket and the
authenticated flag, subject to the session-ownership filter for
session-scoped kinds with a truthy session key. -/
def broadcastToFrontend (clients : List FrontConn) (msg : OutMsg) : List FrontConn :=
  clients.filter (fun c =>
    c.isOpen && c.authenticated &&
      (if msg.type ∈ sessionScopedTypes ∧ msg.sessionKey.getD [] ≠ [] then
         decide (msg.sessionKey.getD [] ∈ c.ownedSessions)
       else true))

/-- `Set.add` on `_ownedSessions` (server.js 3051), kept duplicate-free. -/
def addOwned (conn : FrontConn) (k : Str) : FrontConn :=
  if k ∈ conn.ownedSessions then conn
  else { conn with ownedSessions := k :: conn.ownedSessions }

/-- A control message from a frontend, as the JSON object the server
inspects: a `type` tag plus the optional members the handlers read.
`gateway := none` models a missing or non-numeric `gateway` member
(the `typeof msg.gateway === 'number'` check). -/
structure FrontMsg where
  type : Str
  password : Option Str := none
  gateway : Option Int := none
  sessionKey : Option Str := none
  message : Option Str := none
  attachments : Option (List Attachment) := none
deriving DecidableEq

/-- The default session key `'webui:default_' + gwIdx` substituted for a
falsy `sessionKey` (server.js 3048, 3080). -/
def defaultSessionKey (gwIdx : Int) : Str :=
  "webui:default_".data ++ intToStr gwIdx

/-- `handleFrontendMsg` (server.js 3031–3088).  Arguments `reqId` and
`cancelId` supply the fresh id material (`Date.now()`/random) the real
code generates.  Returns the updated gateway link list, the updated
issuing connection, the reply frames sent to the issuing connection, and
the frames transmitted to the addressed gateway (a frame handed to
`sendFrame` reaches the wire only when the socket is open). -/
def handleFrontendMsg (links : List LinkState) (conn : FrontConn) (msg : FrontMsg)
    (reqId : Str) (cancelId : Str) :
    List LinkState × FrontConn × List OutMsg × List GwReq :=
  let gwIdx : Int := msg.gateway.getD 0
  match (if 0 ≤ gwIdx then links.get? gwIdx.toNat else none) with
  | none =>
      (links, conn,
       [{ type := "error".data,
          message := some ("Invalid gateway index: ".data ++ intToStr gwIdx) }], [])
  | some link =>
    if msg.type = "send".data then
      if !link.connected then
        (links, conn,
         [{ type := "error".data, gateway := some gwIdx,
            message := some ("Gateway not connected".data) }], [])
      else
        let sessionKey := strOr msg.sessionKey (defaultSessionKey gwIdx)
        let conn' := addOwned conn sessionKey
        let va := validAttachments (msg.attachments.getD [])
        let sent := sendMessage link reqId sessionKey (msg.message.getD []) va
        (links.set gwIdx.toNat sent.1, conn', [],
         if link.wsOpen then [sent.2] else [])
    else if msg.type = "cancel".data then
      let sessionKey := strOr msg.sessionKey (defaultSessionKey gwIdx)
      match cancelRun link cancelId sessionKey with
      | none => (links, conn, [], [])
      | some fr => (links, conn, [], if link.wsOpen then [fr] else [])
    else (links, conn, [], [])

/-- The frontend socket `message` handler (server.js 2977–3007), after
JSON parsing: an `auth` message is answered according to the configured
password; any other message from an unauthenticated connection is answered
with a repeated `auth_required` and not processed; otherwise the message
is dispatched to `handleFrontendMsg`.  (Registration of the socket in the
broadcast set and the `init` payload contents are elided; the `init` frame
itself is modelled.) -/
def onFrontendMessage (authRequired : Bool) (password : Str)
    (links : List LinkState) (conn : FrontConn) (msg : FrontMsg)
    (reqId : Str) (cancelId : Str) :
    List LinkState × FrontConn × List OutMsg × List GwReq :=
  if msg.type = "auth".data then
    if !authRequired then
      (links, conn, [{ type := "auth_ok".data }], [])
    else if msg.password = some password then
      (links, { conn with authenticated := true },
       [{ type := "auth_ok".data }, { type := "init".data }], [])
    else
      (links, conn, [{ type := "auth_fail".data }], [])
  else if !conn.authenticated then
    (links, conn, [{ type := "auth_required".data }], [])
  else
    handleFrontendMsg links conn msg reqId cancelId

-- ─────────────────────────────────────────────
-- Browser-side attachment intake (embedded page, server.js 1254–1277)
-- ─────────────────────────────────────────────

/-- A browser `File` as read by the embedded page's `addFiles`. -/
structure BrowserFile where
  name : Str
  size : Nat
  mime : Str
deriving DecidableEq

/-- The client-side attachment cap `MAX_ATTACHMENTS` (server.js 1255). -/
def MAX_ATTACHMENTS : Nat := 5

/-- The embedded page's `addFiles` (server.js 1257–1277): stops once the
pending list holds `MAX_ATTACHMENTS` files, skips files over
`MAX_FILE_SIZE` and duplicates, warns (but keeps) files with a MIME type
outside the whitelist. -/
def addFiles (acc : List BrowserFile) : List BrowserFile → List BrowserFile
  | [] => acc
  | f :: rest =>
      if MAX_ATTACHMENTS ≤ acc.length then acc
      else if MAX_SIZE < f.size then addFiles acc rest
      else if acc.any (fun g =>
          g.name == f.name && g.size == f.size && g.mime == f.mime) then
        addFiles acc rest
      else addFiles (acc ++ [f]) rest

-- ─────────────────────────────────────────────
-- Concrete fixtures for witnesses and counterexamples
-- ─────────────────────────────────────────────

/-- A link whose handshake has completed (socket open, ready, connected). -/
def readyLink : LinkState :=
  { initLink 0 with hasWs := true, wsOpen := true, ready := true, connected := true }

/-- A ready link that tracks one active run for `webui:s1`. -/
def readyLinkRun : LinkState :=
  { readyLink with runIds := [("webui:s1".data, "r9".data)] }

/-- An open, authenticated frontend connection owning no sessions. -/
def conn0 : FrontConn :=
  { isOpen := true, authenticated := true, ownedSessions := [] }

/-- An open, authenticated frontend connection owning `webui:s1`. -/
def connS1 : FrontConn :=
  { isOpen := true, authenticated := true, ownedSessions := [("webui:s1".data)] }

/-- A concrete device identity. -/
def devId0 : DeviceIdentity := { deviceId := "d0".data }

/-- A concrete attachment with data, no declared size, no MIME type. -/
def att0 : Attachment :=
  { filename := "a.bin".data, mimeType := none, data := "ZGF0YQ".data, size := none }

/-- Invariant: every run id stored in `runIds` is non-empty (all insertions
are guarded by JavaScript truthiness of the incoming id). -/
def runIdsInv (st : LinkState) : Prop :=
  ∀ k r, lookupKey st.runIds k = some r → r ≠ []


/-- A session-scoped broadcast frame for `webui:s1`. -/
def lifeMsg : OutMsg :=
  { type := "lifecycle".data, gateway := some 0,
    sessionKey := some ("webui:s1".data), phase := some ("start".data),
    runId := some ("r9".data) }

/-- A connection-scoped status frame. -/
def statusMsg : OutMsg :=
  { type := "status".data, gateway := some 0, connected := some true }

/-- A send control message addressed to gateway 0 for `webui:s1`. -/
def sendMsgS1 : FrontMsg :=
  { type := "send".data, gateway := some 0,
    sessionKey := some ("webui:s1".data), message := some ("hi".data) }

/-- A cancel control message addressed to gateway 0 for `webui:s1`. -/
def cancelMsg0 : FrontMsg :=
  { type := "cancel".data, gateway := some 0,
    sessionKey := some ("webui:s1".data) }

/-- An open but unauthenticated frontend connection. -/
def unauthConn : FrontConn :=
  { isOpen := true, authenticated := false, ownedSessions := [] }

/-- A lifecycle-start agent payload carrying the gateway-prefixed key. -/
def pLife : AgentPayload :=
  { stream := some ("lifecycle".data),
    data := some { phase := some ("start".data) },
    runId := some ("r9".data),
    sessionKey := some ("agent:main:webui:s1".data) }

/-- A concrete response frame matching request `q1`. -/
def fr0 : ResFrame :=
  { id := "q1".data, okNotFalse := true, payloadRunId := some ("r9".data) }

/-- An attachment whose declared size exceeds the 10 MB limit. -/
def bigAtt : Attachment :=
  { filename := "b.bin".data, mimeType := some ("application/zip".data),
    data := "eA".data, size := some 10485761 }

/-- A small browser file for the client-side cap witness. -/
def bf0 : BrowserFile :=
  { name := "f.txt".data, size := 1, mime := "text/plain".data }

/-- A send with no session key, addressed to gateway 0. -/
def sendMsgNoKey : FrontMsg :=
  { type := "send".data, gateway := some 0, message := some ("hi".data) }

/-- A cancel with no session key and no gateway member. -/
def cancelMsgNoKey : FrontMsg := { type := "cancel".data }

-- ─────────────────────────────────────────────
-- Shared lemmas
-- ─────────────────────────────────────────────

theorem lookupKey_cons (p : Str × Str) (rest : List (Str × Str)) (k : Str) :
    lookupKey (p :: rest) k = if p.1 = k then some p.2 else lookupKey rest k := rfl

theorem eraseKey_cons (p : Str × Str) (rest : List (Str × Str)) (k : Str) :
    eraseKey (p :: rest) k = if p.1 = k then eraseKey rest k else p :: eraseKey rest k := rfl

theorem lookupKey_eraseKey_self (l : List (Str × Str)) (k : Str) :
    lookupKey (eraseKey l k) k = none := by
  induction l with
  | nil => rfl
  | cons p rest ih =>
      rw [eraseKey_cons]
      by_cases h : p.1 = k
      · rw [if_pos h]
        exact ih
      · rw [if_neg h, lookupKey_cons, if_neg h]
        exact ih

theorem lookupKey_eraseKey_ne (l : List (Str × Str)) {k k' : Str} (h : k' ≠ k) :
    lookupKey (eraseKey l k) k' = lookupKey l k' := by
  induction l with
  | nil => rfl
  | cons p rest ih =>
      rw [eraseKey_cons, lookupKey_cons]
      by_cases hp : p.1 = k
      · rw [if_pos hp, if_neg (by rw [hp]; exact fun e => h e.symm), ih]
      · rw [if_neg hp, lookupKey_cons]
        by_cases hp' : p.1 = k'
        · rw [if_pos hp', if_pos hp']
        · rw [if_neg hp', if_neg hp', ih]

theorem lookupKey_eraseKey_some {l : List (Str × Str)} {k0 k r : Str}
    (h : lookupKey (eraseKey l k0) k = some r) : lookupKey l k = some r := by
  by_cases hk : k = k0
  · rw [hk, lookupKey_eraseKey_self] at h
    exact absurd h (by simp)
  · rwa [lookupKey_eraseKey_ne l hk] at h

theorem lookupKey_setKey (l : List (Str × Str)) (k v k' : Str) :
    lookupKey (setKey l k v) k' = if k = k' then some v else lookupKey l k' := by
  by_cases h : k = k'
  · simp [setKey, lookupKey, h]
  · simp [setKey, lookupKey, h, lookupKey_eraseKey_ne l (fun e => h e.symm)]

theorem strTruthy_getD {o : Option Str} (h : strTruthy o = true) : o.getD [] ≠ [] := by
  cases o with
  | none => simp [strTruthy] at h
  | some s =>
      simp only [strTruthy, Bool.not_eq_true'] at h
      simpa using h

theorem isPrefixOf_append_self (l t : List Char) : l.isPrefixOf (l ++ t) = true := by
  rw [List.isPrefixOf_iff_prefix]
  exact l.prefix_append t

/-- Round trip of the owning-agent prefix: stripping recovers the
caller-supplied key exactly. -/
theorem stripAgentPre_addAgentPre (k : Str) : stripAgentPre (addAgentPre k) = k := by
  unfold stripAgentPre addAgentPre
  rw [if_pos (isPrefixOf_append_self agentNsPre k)]
  exact List.drop_left agentNsPre k

theorem mem_addOwned (conn : FrontConn) (k : Str) : k ∈ (addOwned conn k).ownedSessions := by
  unfold addOwned
  by_cases h : k ∈ conn.ownedSessions
  · rw [if_pos h]
    exact h
  · rw [if_neg h]
    exact List.mem_cons_self k _

/-- Membership characterization of the filtered broadcast. -/
theorem mem_broadcastToFrontend {clients : List FrontConn} {msg : OutMsg} {c : FrontConn} :
    c ∈ broadcastToFrontend clients msg ↔
      c ∈ clients ∧ c.isOpen = true ∧ c.authenticated = true ∧
        (msg.type ∈ sessionScopedTypes ∧ msg.sessionKey.getD [] ≠ [] →
          msg.sessionKey.getD [] ∈ c.ownedSessions) := by
  unfold broadcastToFrontend
  rw [List.mem_filter]
  by_cases h : msg.type ∈ sessionScopedTypes ∧ msg.sessionKey.getD [] ≠ []
  · simp [h, and_assoc]
  · simp [h, and_assoc]

theorem reconnectCycle_delay (st : LinkState) :
    (reconnectCycle st).reconnectDelay = min (st.reconnectDelay * (3 / 2 : ℚ)) 30000 := by
  unfold reconnectCycle scheduleReconnect timerFire
  by_cases h : st.reconnectTimer <;> simp [h]

theorem nthReconnectWait_closed (n : Nat) (st : LinkState) (h : st.reconnectDelay = 2000) :
    nthReconnectWait st n = min (2000 * (3 / 2 : ℚ) ^ n) 30000 := by
  induction n generalizing st with
  | zero =>
      rw [nthReconnectWait, Function.iterate_zero_apply, h, pow_zero, mul_one,
        min_eq_left (by norm_num)]
  | succ n ih =>
      rw [nthReconnectWait, Function.iterate_succ_apply', reconnectCycle_delay]
      have hn : (reconnectCycle^[n] st).reconnectDelay = min (2000 * (3 / 2 : ℚ) ^ n) 30000 :=
        ih st h
      rw [hn]
      rcases le_total (2000 * (3 / 2 : ℚ) ^ n) 30000 with hle | hle
      · rw [min_eq_left hle, pow_succ, ← mul_assoc]
      · rw [min_eq_right hle]
        have h2 : (30000 : ℚ) ≤ 2000 * (3 / 2 : ℚ) ^ (n + 1) := by
          rw [pow_succ, ← mul_assoc]
          nlinarith
        rw [min_eq_right h2, min_eq_right (by norm_num : (30000 : ℚ) ≤ 30000 * (3 / 2 : ℚ))]


theorem runIdsInv_initLink (i : Nat) : runIdsInv (initLink i) := by
  intro k r h
  simp [initLink, lookupKey] at h

theorem handleResFrame_runIds (st : LinkState) (fr : ResFrame) :
    (handleResFrame st fr).runIds =
      match lookupKey st.pendingReqs fr.id with
      | some sk =>
          if fr.okNotFalse && strTruthy fr.payloadRunId then
            setKey st.runIds sk (fr.payloadRunId.getD [])
          else st.runIds
      | none => st.runIds := by
  unfold handleResFrame
  cases lookupKey st.pendingReqs fr.id with
  | none => rfl
  | some sk =>
      by_cases h : fr.okNotFalse && strTruthy fr.payloadRunId
      · simp [h]
      · simp [h]

theorem handleResFrame_pendingReqs (st : LinkState) (fr : ResFrame) :
    (handleResFrame st fr).pendingReqs = eraseKey st.pendingReqs fr.id := by
  unfold handleResFrame
  cases lookupKey st.pendingReqs fr.id with
  | none => rfl
  | some sk =>
      by_cases h : fr.okNotFalse && strTruthy fr.payloadRunId
      · simp [h]
      · simp [h]

theorem runIdsInv_handleResFrame {st : LinkState} (hst : runIdsInv st) (fr : ResFrame) :
    runIdsInv (handleResFrame st fr) := by
  intro k r h
  rw [handleResFrame_runIds st fr] at h
  cases hp : lookupKey st.pendingReqs fr.id with
  | none =>
      rw [hp] at h
      exact hst k r h
  | some sk =>
      rw [hp] at h
      dsimp only at h
      by_cases hok : (fr.okNotFalse && strTruthy fr.payloadRunId) = true
      · rw [if_pos hok] at h
        rw [lookupKey_setKey] at h
        by_cases hk : sk = k
        · rw [if_pos hk] at h
          injection h with h'
          have hb : strTruthy fr.payloadRunId = true := by
            rw [Bool.and_eq_true] at hok
            exact hok.2
          rw [← h']
          exact strTruthy_getD hb
        · rw [if_neg hk] at h
          exact hst k r h
      · rw [if_neg hok] at h
        exact hst k r h

theorem runIdsInv_handleAgentEvent {st : LinkState} (hst : runIdsInv st)
    (p : Option AgentPayload) : runIdsInv (handleAgentEvent st p).1 := by
  unfold handleAgentEvent
  cases p with
  | none => exact hst
  | some pl =>
      dsimp only
      split_ifs with h1 h2 h3 h4 h5 h6 h7 h8 h9 h10 h11 <;>
        first
          | exact hst
          | (intro k r h
             rw [lookupKey_setKey] at h
             by_cases hk : stripAgentPre (pl.sessionKey.getD []) = k
             · rw [if_pos hk] at h
               injection h with h'
               have hb : strTruthy pl.runId = true := by
                 simp only [Bool.and_eq_true] at h3
                 exact h3.2
               rw [← h']
               exact strTruthy_getD hb
             · rw [if_neg hk] at h
               exact hst k r h)
          | (intro k r h
             exact hst k r (lookupKey_eraseKey_some h))

theorem sendMessage_runIds (st : LinkState) (reqId sessionKey message : Str)
    (atts : List Attachment) :
    (sendMessage st reqId sessionKey message atts).1.runIds = st.runIds := rfl

theorem runIdsInv_sendMessage {st : LinkState} (hst : runIdsInv st)
    (reqId sessionKey message : Str) (atts : List Attachment) :
    runIdsInv (sendMessage st reqId sessionKey message atts).1 := by
  intro k r h
  exact hst k r h

theorem runIdsInv_onClose {st : LinkState} (hst : runIdsInv st) :
    runIdsInv (onClose st) := by
  intro k r h
  unfold onClose scheduleReconnect at h
  split at h <;> exact hst k r h

theorem handleAgentEvent_pendingReqs (st : LinkState) (p : Option AgentPayload) :
    (handleAgentEvent st p).1.pendingReqs = st.pendingReqs := by
  unfold handleAgentEvent
  cases p with
  | none => rfl
  | some pl =>
      dsimp only
      split_ifs <;> rfl

theorem cancelRun_sessionKey {st : LinkState} {cancelId sessionKey : Str} {fr : GwReq}
    (h : cancelRun st cancelId sessionKey = some fr) : fr.sessionKey = some sessionKey := by
  unfold cancelRun at h
  cases hl : lookupKey st.runIds sessionKey with
  | none =>
      rw [hl] at h
      cases h
  | some r =>
      rw [hl] at h
      dsimp only at h
      by_cases he : r.isEmpty = true
      · rw [if_pos he] at h
        cases h
      · rw [if_neg he] at h
        injection h with h'
        rw [← h']

/-- Behaviour of `handleFrontendMsg` on a `send` addressed to a configured,
connected link. -/
theorem handleFrontendMsg_send {links : List LinkState} {conn : FrontConn}
    {msg : FrontMsg} {link : LinkState} (rid cid : Str)
    (ht : msg.type = "send".data)
    (h0 : 0 ≤ msg.gateway.getD 0)
    (hg : links.get? (msg.gateway.getD 0).toNat = some link)
    (hc : link.connected = true) :
    handleFrontendMsg links conn msg rid cid =
      (links.set (msg.gateway.getD 0).toNat
        (sendMessage link rid
          (strOr msg.sessionKey (defaultSessionKey (msg.gateway.getD 0)))
          (msg.message.getD [])
          (validAttachments (msg.attachments.getD []))).1,
       addOwned conn (strOr msg.sessionKey (defaultSessionKey (msg.gateway.getD 0))),
       [],
       if link.wsOpen then
         [(sendMessage link rid
            (strOr msg.sessionKey (defaultSessionKey (msg.gateway.getD 0)))
            (msg.message.getD [])
            (validAttachments (msg.attachments.getD []))).2]
       else []) := by
  unfold handleFrontendMsg
  dsimp only
  rw [if_pos h0, hg]
  dsimp only
  rw [if_pos ht, hc]
  rfl

/-- Behaviour of `handleFrontendMsg` on a `send` addressed to a configured
link that is not connected. -/
theorem handleFrontendMsg_send_notConnected {links : List LinkState} {conn : FrontConn}
    {msg : FrontMsg} {link : LinkState} (rid cid : Str)
    (ht : msg.type = "send".data)
    (h0 : 0 ≤ msg.gateway.getD 0)
    (hg : links.get? (msg.gateway.getD 0).toNat = some link)
    (hc : link.connected = false) :
    handleFrontendMsg links conn msg rid cid =
      (links, conn,
       [{ type := "error".data, gateway := some (msg.gateway.getD 0),
          message := some ("Gateway not connected".data) }], []) := by
  unfold handleFrontendMsg
  dsimp only
  rw [if_pos h0, hg]
  dsimp only
  rw [if_pos ht, hc]
  rfl

/-- Behaviour of `handleFrontendMsg` on a `cancel` addressed to a configured
link. -/
theorem handleFrontendMsg_cancel {links : List LinkState} {conn : FrontConn}
    {msg : FrontMsg} {link : LinkState} (rid cid : Str)
    (ht : msg.type = "cancel".data)
    (h0 : 0 ≤ msg.gateway.getD 0)
    (hg : links.get? (msg.gateway.getD 0).toNat = some link) :
    handleFrontendMsg links conn msg rid cid =
      (links, conn, [],
       match cancelRun link cid
           (strOr msg.sessionKey (defaultSessionKey (msg.gateway.getD 0))) with
       | none => []
       | some fr => if link.wsOpen then [fr] else []) := by
  unfold handleFrontendMsg
  dsimp only
  rw [if_pos h0, hg]
  dsimp only
  rw [if_neg (by rw [ht]; decide), if_pos ht]
  cases cancelRun link cid
      (strOr msg.sessionKey (defaultSessionKey (msg.gateway.getD 0))) <;> rfl

theorem addFiles_length_le (files : List BrowserFile) (acc : List BrowserFile)
    (h : acc.length ≤ MAX_ATTACHMENTS) :
    (addFiles acc files).length ≤ MAX_ATTACHMENTS := by
  induction files generalizing acc with
  | nil => exact h
  | cons f rest ih =>
      unfold addFiles
      by_cases h1 : MAX_ATTACHMENTS ≤ acc.length
      · simpa [h1] using h
      · rw [if_neg h1]
        by_cases h2 : MAX_SIZE < f.size
        · rw [if_pos h2]
          exact ih acc h
        · rw [if_neg h2]
          by_cases h3 : acc.any (fun g =>
              g.name == f.name && g.size == f.size && g.mime == f.mime)
          · rw [if_pos h3]
            exact ih acc h
          · rw [if_neg h3]
            refine ih (acc ++ [f]) ?_
            rw [List.length_append, List.length_singleton]
            omega

-- ─────────────────────────────────────────────
-- Claim theorems
-- ─────────────────────────────────────────────

/-- C1: a broadcast frame of a session-scoped kind (`lifecycle`, `chunk`,
`thinking`, `tool_start`, `tool_result`) with a non-empty session key is
delivered exactly to the authenticated (live) frontend connections whose
`ownedSessions` contains that key; a connection-scoped frame (`status`,
`error`) is delivered to every authenticated live connection; and after an
accepted `send` the issuing connection's `ownedSessions` contains the
send's session key. -/
theorem frontend_broadcast_session_filtering :
    (∀ (clients : List FrontConn) (msg : OutMsg) (c : FrontConn),
        c ∈ broadcastToFrontend clients msg →
        c.authenticated = true ∧
          (msg.type ∈ sessionScopedTypes → msg.sessionKey.getD [] ≠ [] →
            msg.sessionKey.getD [] ∈ c.ownedSessions)) ∧
    (∀ (clients : List FrontConn) (msg : OutMsg) (c : FrontConn),
        c ∈ clients → c.isOpen = true →
        (c ∈ broadcastToFrontend clients msg ↔
          c.authenticated = true ∧
            (msg.type ∈ sessionScopedTypes → msg.sessionKey.getD [] ≠ [] →
              msg.sessionKey.getD [] ∈ c.ownedSessions))) ∧
    (∀ (clients : List FrontConn) (msg : OutMsg) (c : FrontConn),
        msg.type = "status".data ∨ msg.type = "error".data →
        c ∈ clients → c.isOpen = true →
        (c ∈ broadcastToFrontend clients msg ↔ c.authenticated = true)) ∧
    (∀ (links : List LinkState) (conn : FrontConn) (msg : FrontMsg)
        (rid cid : Str) (link : LinkState),
        msg.type = "send".data →
        0 ≤ msg.gateway.getD 0 →
        links.get? (msg.gateway.getD 0).toNat = some link →
        link.connected = true →
        strOr msg.sessionKey (defaultSessionKey (msg.gateway.getD 0)) ∈
          (handleFrontendMsg links conn msg rid cid).2.1.ownedSessions) := by
  refine ⟨?_, ?_, ?_, ?_⟩
  · intro clients msg c hmem
    rw [mem_broadcastToFrontend] at hmem
    exact ⟨hmem.2.2.1, fun h1 h2 => hmem.2.2.2 ⟨h1, h2⟩⟩
  · intro clients msg c hc hopen
    rw [mem_broadcastToFrontend]
    constructor
    · intro h
      exact ⟨h.2.2.1, fun h1 h2 => h.2.2.2 ⟨h1, h2⟩⟩
    · intro h
      exact ⟨hc, hopen, h.1, fun hp => h.2 hp.1 hp.2⟩
  · intro clients msg c htype hc hopen
    have hns : msg.type ∉ sessionScopedTypes := by
      rcases htype with h | h <;> rw [h] <;> decide
    rw [mem_broadcastToFrontend]
    constructor
    · intro h
      exact h.2.2.1
    · intro h
      exact ⟨hc, hopen, h, fun hp => absurd hp.1 hns⟩
  · intro links conn msg rid cid link ht h0 hg hc
    rw [handleFrontendMsg_send rid cid ht h0 hg hc]
    exact mem_addOwned conn _

/-- Witness for C1 at concrete inputs: an accepted send on `webui:s1`
records ownership, a lifecycle frame for `webui:s1` reaches the owning
connection, and a status frame reaches every authenticated connection. -/
theorem frontend_broadcast_session_filtering_witness :
    (strOr sendMsgS1.sessionKey (defaultSessionKey (sendMsgS1.gateway.getD 0)) ∈
        (handleFrontendMsg [readyLink] conn0 sendMsgS1 ("q1".data)
          ("c1".data)).2.1.ownedSessions) ∧
    (connS1 ∈ broadcastToFrontend [connS1] lifeMsg ↔
      connS1.authenticated = true ∧
        (lifeMsg.type ∈ sessionScopedTypes → lifeMsg.sessionKey.getD [] ≠ [] →
          lifeMsg.sessionKey.getD [] ∈ connS1.ownedSessions)) ∧
    (connS1 ∈ broadcastToFrontend [connS1] statusMsg ↔
      connS1.authenticated = true) :=
  ⟨frontend_broadcast_session_filtering.2.2.2 [readyLink] conn0 sendMsgS1
      ("q1".data) ("c1".data) readyLink rfl (by decide) rfl rfl,
   frontend_broadcast_session_filtering.2.1 [connS1] lifeMsg connS1
      (by decide) rfl,
   frontend_broadcast_session_filtering.2.2.1 [connS1] statusMsg connS1
      (Or.inl rfl) (by decide) rfl⟩

/-- C2: while a frontend connection is unauthenticated, any message whose
type is not `auth` is answered with a repeated `auth_required` frame, no
frame is forwarded to any gateway, and neither the connection nor the
links change. -/
theorem unauthenticated_messages_refused :
    ∀ (authRequired : Bool) (password : Str) (links : List LinkState)
      (conn : FrontConn) (msg : FrontMsg) (rid cid : Str),
      conn.authenticated = false → msg.type ≠ "auth".data →
      onFrontendMessage authRequired password links conn msg rid cid =
        (links, conn, [{ type := "auth_required".data }], []) := by
  intro ar pw links conn msg rid cid hauth hne
  unfold onFrontendMessage
  rw [if_neg hne, hauth]
  rfl

/-- Witness for C2: an unauthenticated connection sending a `send` gets
only `auth_required` back and nothing reaches a gateway. -/
theorem unauthenticated_messages_refused_witness :
    unauthConn.authenticated = false ∧ sendMsgS1.type ≠ "auth".data ∧
    onFrontendMessage true ("pw".data) [readyLink] unauthConn sendMsgS1
        ("q1".data) ("c1".data) =
      ([readyLink], unauthConn, [{ type := "auth_required".data }], []) :=
  ⟨rfl, by decide,
   unauthenticated_messages_refused true ("pw".data) [readyLink] unauthConn
     sendMsgS1 ("q1".data) ("c1".data) rfl (by decide)⟩

/-- C3: on any link state whose stored run ids are non-empty (which every
insertion guarantees, see `runIdsInv_handleResFrame` and
`runIdsInv_handleAgentEvent`), `cancelRun` issues no frame if and only if
`activeRuns` (`runIds`) has no entry for the session key, and when an
entry exists the issued `agent.cancel` request carries the stored run
id. -/
theorem cancelRun_noop_iff_no_activeRun :
    ∀ (st : LinkState) (cancelId sessionKey : Str), runIdsInv st →
      (cancelRun st cancelId sessionKey = none ↔
        lookupKey st.runIds sessionKey = none) ∧
      (∀ r, lookupKey st.runIds sessionKey = some r →
        cancelRun st cancelId sessionKey =
          some { id := "cancel_".data ++ cancelId,
                 method := "agent.cancel".data,
                 sessionKey := some sessionKey, runId := some r }) := by
  intro st cid k hinv
  cases h : lookupKey st.runIds k with
  | none =>
      refine ⟨by simp [cancelRun, h], ?_⟩
      intro r hr
      simp at hr
  | some r =>
      have hr : r ≠ [] := hinv k r h
      have hre : r.isEmpty = false := by
        cases r with
        | nil => exact absurd rfl hr
        | cons a as => rfl
      constructor
      · simp [cancelRun, h, hre]
      · intro r' hr'
        injection hr' with he
        subst he
        unfold cancelRun
        rw [h]
        dsimp only
        rw [hre]
        rfl

/-- Witness for C3: on a link tracking run `r9` for `webui:s1`, cancel is
not a no-op and carries `r9`; the invariant hypothesis is discharged for
the concrete state. -/
theorem cancelRun_noop_iff_no_activeRun_witness :
    (cancelRun readyLinkRun ("t1".data) ("webui:s1".data) = none ↔
      lookupKey readyLinkRun.runIds ("webui:s1".data) = none) ∧
    (∀ r, lookupKey readyLinkRun.runIds ("webui:s1".data) = some r →
      cancelRun readyLinkRun ("t1".data) ("webui:s1".data) =
        some { id := "cancel_".data ++ "t1".data,
               method := "agent.cancel".data,
               sessionKey := some ("webui:s1".data), runId := some r }) :=
  cancelRun_noop_iff_no_activeRun readyLinkRun ("t1".data) ("webui:s1".data)
    (by
      intro k r h
      rw [show readyLinkRun.runIds = [("webui:s1".data, "r9".data)] from rfl,
        lookupKey_cons] at h
      by_cases hk : ("webui:s1".data, "r9".data).1 = k
      · rw [if_pos hk] at h
        injection h with he
        rw [← he]
        decide
      · rw [if_neg hk] at h
        cases h)

/-- C4: after the handshake reaches Ready the backoff delay is reset to
the 2000 ms base, the wait of the n-th reconnect timer armed thereafter is
`min(2000 * 1.5^n, 30000)` (all values exact dyadic rationals, hence
exact in the JavaScript doubles), and arming is idempotent while a timer
is already pending — at most one reconnect timer exists per link. -/
theorem reconnect_backoff_policy :
    (∀ (st : LinkState) (n : Nat),
        nthReconnectWait (handshakeOk st) n =
          min (2000 * (3 / 2 : ℚ) ^ n) 30000) ∧
    (∀ st : LinkState, (handshakeOk st).reconnectDelay = 2000) ∧
    (∀ st : LinkState, st.reconnectTimer = true → scheduleReconnect st = st) := by
  refine ⟨fun st n => nthReconnectWait_closed n (handshakeOk st) rfl,
    fun st => rfl, ?_⟩
  intro st h
  unfold scheduleReconnect
  rw [if_pos h]

/-- Witness for C4: the third wait after Ready is 4500 ms and scheduling
with a pending timer changes nothing. -/
theorem reconnect_backoff_policy_witness :
    nthReconnectWait (handshakeOk (initLink 0)) 2 =
      min (2000 * (3 / 2 : ℚ) ^ 2) 30000 ∧
    ({ initLink 0 with reconnectTimer := true } : LinkState).reconnectTimer = true ∧
    scheduleReconnect { initLink 0 with reconnectTimer := true } =
      { initLink 0 with reconnectTimer := true } :=
  ⟨reconnect_backoff_policy.1 (initLink 0) 2, rfl,
   reconnect_backoff_policy.2.2 { initLink 0 with reconnectTimer := true } rfl⟩

/-- C5: stripping the owning-agent prefix from a gateway-prefixed session
key recovers the key exactly, and every frame `handleAgentEvent` forwards
to the frontends carries the prefix-stripped key, never the prefixed
form. -/
theorem agent_event_key_prefix_stripped :
    ∀ (st : LinkState) (p : AgentPayload) (k : Str),
      p.sessionKey = some (addAgentPre k) →
      stripAgentPre (addAgentPre k) = k ∧
      ∀ m ∈ (handleAgentEvent st (some p)).2, m.sessionKey = some k := by
  intro st p k hp
  refine ⟨stripAgentPre_addAgentPre k, ?_⟩
  intro m hm
  unfold handleAgentEvent at hm
  dsimp only at hm
  rw [hp] at hm
  simp only [Option.getD_some] at hm
  rw [stripAgentPre_addAgentPre] at hm
  split_ifs at hm <;> simp_all

/-- Witness for C5 at a concrete lifecycle-start event for
`agent:main:webui:s1`. -/
theorem agent_event_key_prefix_stripped_witness :
    pLife.sessionKey = some (addAgentPre ("webui:s1".data)) ∧
    (stripAgentPre (addAgentPre ("webui:s1".data)) = "webui:s1".data ∧
      ∀ m ∈ (handleAgentEvent readyLink (some pLife)).2,
        m.sessionKey = some ("webui:s1".data)) :=
  ⟨by decide,
   agent_event_key_prefix_stripped readyLink pLife ("webui:s1".data) (by decide)⟩

/-- C6 counterexample: the optional nonce argument supplied as the empty
string (falsy in JavaScript) yields the `v1` 8-segment payload and no
`nonce` member, although a nonce value was supplied — refuting
"the nonce appended / version `v2` / nonce member present exactly when a
nonce is supplied" for the empty-string nonce. -/
theorem device_auth_empty_nonce_cex :
    buildAuthPayloadParts devId0 (some ("tok".data)) (some []) 5 =
      ["v1".data, "d0".data, "gateway-client".data, "backend".data,
       "operator".data, "operator.admin".data, "5".data, "tok".data] ∧
    (buildDeviceAuthField devId0 (some []) 5).nonce = none := by
  constructor
  · decide
  · decide

/-- C6 (amended): for every identity, token, optional nonce and signing
time, the payload is the pipe-joined 8-segment sequence
`version|deviceId|clientId|clientMode|role|scopes|signedAtMs|token` with
the nonce appended as a ninth segment exactly when a NON-EMPTY nonce is
supplied (JavaScript truthiness), the version segment is `v2` exactly
then (`v1` otherwise), and the returned object carries the `nonce` member
exactly then. -/
theorem device_auth_payload_structure :
    ∀ (identity : DeviceIdentity) (token nonce : Option Str) (t : Nat),
      (strTruthy nonce = true →
        buildAuthPayloadParts identity token nonce t =
          ["v2".data, identity.deviceId, "gateway-client".data, "backend".data,
           "operator".data, "operator.admin".data, natToStr t, token.getD [],
           nonce.getD []] ∧
        (buildDeviceAuthField identity nonce t).nonce = nonce) ∧
      (strTruthy nonce = false →
        buildAuthPayloadParts identity token nonce t =
          ["v1".data, identity.deviceId, "gateway-client".data, "backend".data,
           "operator".data, "operator.admin".data, natToStr t, token.getD []] ∧
        (buildDeviceAuthField identity nonce t).nonce = none) ∧
      buildAuthPayload identity token nonce t =
        List.intercalate ("|".data)
          (buildAuthPayloadParts identity token nonce t) := by
  intro idn tok non t
  refine ⟨fun h => ⟨?_, ?_⟩, fun h => ⟨?_, ?_⟩, rfl⟩
  · unfold buildAuthPayloadParts
    rw [h]
    simp
  · unfold buildDeviceAuthField
    rw [h]
    simp
  · unfold buildAuthPayloadParts
    rw [h]
    simp
  · unfold buildDeviceAuthField
    rw [h]
    simp

/-- Witness for C6 (amended) at a concrete non-empty nonce. -/
theorem device_auth_payload_structure_witness :
    strTruthy (some ("n1".data)) = true ∧
    (buildAuthPayloadParts devId0 (some ("tok".data)) (some ("n1".data)) 5 =
      ["v2".data, devId0.deviceId, "gateway-client".data, "backend".data,
       "operator".data, "operator.admin".data, natToStr 5,
       (some ("tok".data)).getD [], (some ("n1".data)).getD []] ∧
     (buildDeviceAuthField devId0 (some ("n1".data)) 5).nonce =
       some ("n1".data)) :=
  ⟨by decide,
   (device_auth_payload_structure devId0 (some ("tok".data))
      (some ("n1".data)) 5).1 (by decide)⟩

/-- C7 counterexample: a `pendingRequests` entry created by `sendMessage`
survives the socket close handler — the close handler does not clear the
map and no timeout mechanism exists, refuting "no entry for a request
issued before a disconnect survives the disconnect". -/
theorem pending_request_survives_disconnect_cex :
    lookupKey (onClose (sendMessage readyLink ("q1".data) ("webui:s1".data)
        ("hi".data) []).1).pendingReqs ("q1".data) =
      some ("webui:s1".data) := by
  decide

/-- C7 (amended): `pendingRequests` entries are created exactly when a
message-send request is issued and removed exactly when a response frame
with the matching id arrives (success or failure alike); the socket close
handler leaves `pendingRequests` unchanged (entries survive a disconnect)
and agent events never touch it; the code has no request timeout. -/
theorem pending_requests_lifecycle :
    ∀ (st : LinkState) (reqId sessionKey message : Str)
      (atts : List Attachment) (fr : ResFrame) (p : Option AgentPayload),
      lookupKey (sendMessage st reqId sessionKey message atts).1.pendingReqs
          reqId = some sessionKey ∧
      (∀ i, i ≠ reqId →
        lookupKey (sendMessage st reqId sessionKey message atts).1.pendingReqs i =
          lookupKey st.pendingReqs i) ∧
      lookupKey (handleResFrame st fr).pendingReqs fr.id = none ∧
      (∀ i, i ≠ fr.id →
        lookupKey (handleResFrame st fr).pendingReqs i =
          lookupKey st.pendingReqs i) ∧
      (onClose st).pendingReqs = st.pendingReqs ∧
      (handleAgentEvent st p).1.pendingReqs = st.pendingReqs := by
  intro st reqId k m atts fr p
  refine ⟨?_, ?_, ?_, ?_, ?_, handleAgentEvent_pendingReqs st p⟩
  · show lookupKey (setKey st.pendingReqs reqId k) reqId = some k
    rw [lookupKey_setKey, if_pos rfl]
  · intro i hi
    show lookupKey (setKey st.pendingReqs reqId k) i = lookupKey st.pendingReqs i
    rw [lookupKey_setKey, if_neg (fun e => hi e.symm)]
  · rw [handleResFrame_pendingReqs, lookupKey_eraseKey_self]
  · intro i hi
    rw [handleResFrame_pendingReqs, lookupKey_eraseKey_ne _ hi]
  · unfold onClose scheduleReconnect
    split <;> rfl

/-- Witness for C7 (amended) at concrete inputs. -/
theorem pending_requests_lifecycle_witness :
    lookupKey (sendMessage readyLink ("q1".data) ("webui:s1".data)
        ("hi".data) []).1.pendingReqs ("q1".data) = some ("webui:s1".data) ∧
    lookupKey (sendMessage readyLink ("q1".data) ("webui:s1".data)
        ("hi".data) []).1.pendingReqs ("q2".data) =
      lookupKey readyLink.pendingReqs ("q2".data) ∧
    lookupKey (handleResFrame readyLink fr0).pendingReqs fr0.id = none ∧
    lookupKey (handleResFrame readyLink fr0).pendingReqs ("q2".data) =
      lookupKey readyLink.pendingReqs ("q2".data) ∧
    (onClose readyLink).pendingReqs = readyLink.pendingReqs ∧
    (handleAgentEvent readyLink (some pLife)).1.pendingReqs =
      readyLink.pendingReqs := by
  have h := pending_requests_lifecycle readyLink ("q1".data) ("webui:s1".data)
    ("hi".data) [] fr0 (some pLife)
  exact ⟨h.1, h.2.1 ("q2".data) (by decide), h.2.2.1,
    h.2.2.2.1 ("q2".data) (by decide), h.2.2.2.2.1, h.2.2.2.2.2⟩

/-- C8 counterexample: a `cancel` addressed to a configured link that is
not Ready (fresh, disconnected link, no tracked run) produces NO reply at
all — in particular no `error` frame — refuting "the server replies to the
issuing connection with an Error frame" for cancel. -/
theorem cancel_unready_no_error_cex :
    handleFrontendMsg [initLink 0] conn0 cancelMsg0 ("q1".data) ("c1".data) =
      ([initLink 0], conn0, [], []) := by
  decide

/-- C8 (amended): a `send` addressed to a configured link that is not
connected is answered with an `error` frame and nothing is forwarded; a
`cancel` is never answered with an `error` frame regardless of link
readiness — it forwards nothing when no run is tracked for the session
(silent no-op) or when the socket is not open, and when a run is tracked
and the socket is open the cancel frame is forwarded even if the link is
not Ready. -/
theorem unready_link_send_cancel :
    ∀ (links : List LinkState) (conn : FrontConn) (msg : FrontMsg)
      (rid cid : Str) (link : LinkState),
      0 ≤ msg.gateway.getD 0 →
      links.get? (msg.gateway.getD 0).toNat = some link →
      ((msg.type = "send".data → link.connected = false →
          handleFrontendMsg links conn msg rid cid =
            (links, conn,
             [{ type := "error".data, gateway := some (msg.gateway.getD 0),
                message := some ("Gateway not connected".data) }], [])) ∧
       (msg.type = "cancel".data →
          (handleFrontendMsg links conn msg rid cid).2.2.1 = [] ∧
          (lookupKey link.runIds
              (strOr msg.sessionKey (defaultSessionKey (msg.gateway.getD 0))) =
                none →
            (handleFrontendMsg links conn msg rid cid).2.2.2 = []) ∧
          (link.wsOpen = false →
            (handleFrontendMsg links conn msg rid cid).2.2.2 = []) ∧
          (∀ r, lookupKey link.runIds
              (strOr msg.sessionKey (defaultSessionKey (msg.gateway.getD 0))) =
                some r → r ≠ [] → link.wsOpen = true →
            (handleFrontendMsg links conn msg rid cid).2.2.2 =
              [{ id := "cancel_".data ++ cid, method := "agent.cancel".data,
                 sessionKey := some (strOr msg.sessionKey
                   (defaultSessionKey (msg.gateway.getD 0))),
                 runId := some r }]))) := by
  intro links conn msg rid cid link h0 hg
  constructor
  · intro ht hc
    exact handleFrontendMsg_send_notConnected rid cid ht h0 hg hc
  · intro ht
    rw [handleFrontendMsg_cancel rid cid ht h0 hg]
    refine ⟨?_, ?_, ?_, ?_⟩
    · cases cancelRun link cid
        (strOr msg.sessionKey (defaultSessionKey (msg.gateway.getD 0))) <;> rfl
    · intro hnone
      have hcr : cancelRun link cid
          (strOr msg.sessionKey (defaultSessionKey (msg.gateway.getD 0))) =
            none := by
        unfold cancelRun
        rw [hnone]
      rw [hcr]
    · intro hws
      cases hcr : cancelRun link cid
          (strOr msg.sessionKey (defaultSessionKey (msg.gateway.getD 0))) with
      | none => rfl
      | some fr =>
          dsimp only
          rw [hws]
          rfl
    · intro r hr hrne hws
      have hre : r.isEmpty = false := by
        cases r with
        | nil => exact absurd rfl hrne
        | cons a as => rfl
      have hcr : cancelRun link cid
          (strOr msg.sessionKey (defaultSessionKey (msg.gateway.getD 0))) =
            some { id := "cancel_".data ++ cid, method := "agent.cancel".data,
                   sessionKey := some (strOr msg.sessionKey
                     (defaultSessionKey (msg.gateway.getD 0))),
                   runId := some r } := by
        unfold cancelRun
        rw [hr]
        dsimp only
        rw [hre]
        rfl
      rw [hcr]
      dsimp only
      rw [hws]
      rfl

/-- Witness for C8 (amended): a send to a fresh disconnected link yields
the error reply, and a cancel there yields no reply and no forward. -/
theorem unready_link_send_cancel_witness :
    (handleFrontendMsg [initLink 0] conn0 sendMsgS1 ("q1".data) ("c1".data) =
      ([initLink 0], conn0,
       [{ type := "error".data, gateway := some (sendMsgS1.gateway.getD 0),
          message := some ("Gateway not connected".data) }], [])) ∧
    ((handleFrontendMsg [initLink 0] conn0 cancelMsg0 ("q1".data)
        ("c1".data)).2.2.1 = [] ∧
     (handleFrontendMsg [initLink 0] conn0 cancelMsg0 ("q1".data)
        ("c1".data)).2.2.2 = []) := by
  have hs := unready_link_send_cancel [initLink 0] conn0 sendMsgS1
    ("q1".data) ("c1".data) (initLink 0) (by decide) rfl
  have hc := unready_link_send_cancel [initLink 0] conn0 cancelMsg0
    ("q1".data) ("c1".data) (initLink 0) (by decide) rfl
  exact ⟨hs.1 rfl rfl, (hc.2 rfl).1, (hc.2 rfl).2.1 (by decide)⟩

/-- C9 counterexample: six attachments in one send are all accepted by the
server boundary — the filter imposes no count limit, refuting "at most 5
attachments are accepted per send". -/
theorem six_attachments_accepted_cex :
    (validAttachments (List.replicate 6 att0)).length = 6 := by
  decide

/-- C9 (amended): the server boundary enforces no per-send attachment
count limit (the 5-attachment cap exists only in the browser page's
`addFiles`); an attachment is accepted iff it has truthy `data` and its
declared `size` is not a truthy value above 10 MB — in particular every
attachment whose declared size exceeds 10 MB is rejected, and a MIME type
outside the whitelist is not grounds for rejection (it is only logged). -/
theorem attachment_boundary_validation :
    (∀ (atts : List Attachment) (a : Attachment),
        a ∈ validAttachments atts ↔
          a ∈ atts ∧ a.data ≠ [] ∧
            ¬(sizeTruthy a.size = true ∧ MAX_SIZE < a.size.getD 0)) ∧
    (∀ (atts : List Attachment) (a : Attachment) (s : Nat),
        a.size = some s → MAX_SIZE < s → a ∉ validAttachments atts) ∧
    (∀ (acc files : List BrowserFile),
        acc.length ≤ MAX_ATTACHMENTS →
        (addFiles acc files).length ≤ MAX_ATTACHMENTS) := by
  have hmem : ∀ (atts : List Attachment) (a : Attachment),
      a ∈ validAttachments atts ↔
        a ∈ atts ∧ a.data ≠ [] ∧
          ¬(sizeTruthy a.size = true ∧ MAX_SIZE < a.size.getD 0) := by
    intro atts a
    unfold validAttachments
    rw [List.mem_filter]
    constructor
    · intro h
      refine ⟨h.1, ?_, ?_⟩
      · intro hd
        have h2 := h.2
        rw [if_pos (by rw [hd]; rfl)] at h2
        exact Bool.false_ne_true h2
      · intro hc
        have h2 := h.2
        have hb : (sizeTruthy a.size && decide (MAX_SIZE < a.size.getD 0)) = true := by
          rw [hc.1]
          simp [hc.2]
        by_cases hd : a.data.isEmpty = true
        · rw [if_pos hd] at h2
          exact Bool.false_ne_true h2
        · rw [if_neg hd, if_pos hb] at h2
          exact Bool.false_ne_true h2
    · intro h
      refine ⟨h.1, ?_⟩
      have hde : a.data.isEmpty = false := by simpa using h.2.1
      rw [if_neg (by rw [hde]; exact Bool.false_ne_true)]
      have hsz : (sizeTruthy a.size && decide (MAX_SIZE < a.size.getD 0)) = false := by
        by_cases hb : sizeTruthy a.size = true
        · have hnl : ¬(MAX_SIZE < a.size.getD 0) := fun hlt => h.2.2 ⟨hb, hlt⟩
          rw [hb]
          simp [hnl]
        · rw [Bool.not_eq_true] at hb
          rw [hb]
          rfl
      rw [if_neg (by rw [hsz]; exact Bool.false_ne_true)]
  refine ⟨hmem, ?_, ?_⟩
  · intro atts a s hs hlt hm
    rw [hmem] at hm
    refine hm.2.2 ⟨?_, ?_⟩
    · rw [hs]
      unfold sizeTruthy
      have : s ≠ 0 := by omega
      simpa using this
    · rw [hs]
      simpa using hlt
  · intro acc files h
    exact addFiles_length_le files acc h

/-- Witness for C9 (amended) at concrete inputs: the acceptance iff for a
plain attachment, rejection of an oversized one, and the client-side cap. -/
theorem attachment_boundary_validation_witness :
    (att0 ∈ validAttachments [att0] ↔
      att0 ∈ [att0] ∧ att0.data ≠ [] ∧
        ¬(sizeTruthy att0.size = true ∧ MAX_SIZE < att0.size.getD 0)) ∧
    bigAtt ∉ validAttachments [att0, bigAtt] ∧
    (addFiles [] [bf0]).length ≤ MAX_ATTACHMENTS :=
  ⟨attachment_boundary_validation.1 [att0] att0,
   attachment_boundary_validation.2.1 [att0, bigAtt] bigAtt 10485761 rfl
     (by decide),
   attachment_boundary_validation.2.2 [] [bf0] (by decide)⟩

/-- JavaScript `o || d` evaluates to the default when `o` is falsy. -/
theorem strOr_falsy {o : Option Str} (d : Str) (h : strTruthy o = false) :
    strOr o d = d := by
  unfold strOr
  rw [h]
  rfl

/-- Projection facts about the request built by `sendMessage`. -/
theorem sendMessage_req_sessionKey (st : LinkState) (reqId k m : Str)
    (atts : List Attachment) :
    (sendMessage st reqId k m atts).2.sessionKey = some k := rfl

/-- C10: a `send` or `cancel` whose `sessionKey` is missing or empty is
routed under the default key `webui:default_<gwIdx>` (with gateway index 0
when the `gateway` member is missing or non-numeric); every frame
forwarded on its behalf carries that default key and every connection that
so sends gains ownership of the same shared default key. -/
theorem default_session_key_substitution :
    ∀ (links : List LinkState) (conn : FrontConn) (msg : FrontMsg)
      (rid cid : Str) (link : LinkState),
      0 ≤ msg.gateway.getD 0 →
      links.get? (msg.gateway.getD 0).toNat = some link →
      ((msg.type = "send".data → strTruthy msg.sessionKey = false →
          link.connected = true →
          (defaultSessionKey (msg.gateway.getD 0) ∈
             (handleFrontendMsg links conn msg rid cid).2.1.ownedSessions ∧
           (∀ conn2 : FrontConn,
             defaultSessionKey (msg.gateway.getD 0) ∈
               (handleFrontendMsg links conn2 msg rid cid).2.1.ownedSessions) ∧
           (∀ fr ∈ (handleFrontendMsg links conn msg rid cid).2.2.2,
             fr.sessionKey = some (defaultSessionKey (msg.gateway.getD 0))))) ∧
       (msg.type = "cancel".data → strTruthy msg.sessionKey = false →
          ∀ fr ∈ (handleFrontendMsg links conn msg rid cid).2.2.2,
            fr.sessionKey = some (defaultSessionKey (msg.gateway.getD 0))) ∧
       (msg.gateway = none → msg.gateway.getD 0 = 0)) := by
  intro links conn msg rid cid link h0 hg
  refine ⟨?_, ?_, ?_⟩
  · intro ht hfal hc
    refine ⟨?_, fun conn2 => ?_, ?_⟩
    · rw [handleFrontendMsg_send rid cid ht h0 hg hc, strOr_falsy _ hfal]
      exact mem_addOwned conn _
    · rw [handleFrontendMsg_send rid cid ht h0 hg hc, strOr_falsy _ hfal]
      exact mem_addOwned conn2 _
    · intro fr hfr
      rw [handleFrontendMsg_send rid cid ht h0 hg hc, strOr_falsy _ hfal] at hfr
      dsimp only at hfr
      by_cases hw : link.wsOpen = true
      · rw [if_pos hw, List.mem_singleton] at hfr
        rw [hfr]
        exact sendMessage_req_sessionKey link rid _ _ _
      · rw [if_neg hw] at hfr
        cases hfr
  · intro ht hfal fr hfr
    rw [handleFrontendMsg_cancel rid cid ht h0 hg, strOr_falsy _ hfal] at hfr
    dsimp only at hfr
    cases hcr : cancelRun link cid (defaultSessionKey (msg.gateway.getD 0)) with
    | none =>
        rw [hcr] at hfr
        cases hfr
    | some fr' =>
        rw [hcr] at hfr
        dsimp only at hfr
        by_cases hw : link.wsOpen = true
        · rw [if_pos hw, List.mem_singleton] at hfr
          rw [hfr]
          exact cancelRun_sessionKey hcr
        · rw [if_neg hw] at hfr
          cases hfr
  · intro hn
    rw [hn]
    rfl

/-- Witness for C10: a key-less send on gateway 0 records ownership of
`webui:default_0` for two different connections, and a key-less cancel
with a missing gateway member resolves to index 0. -/
theorem default_session_key_substitution_witness :
    (defaultSessionKey (sendMsgNoKey.gateway.getD 0) ∈
       (handleFrontendMsg [readyLink] conn0 sendMsgNoKey ("q1".data)
         ("c1".data)).2.1.ownedSessions ∧
     (∀ conn2 : FrontConn,
       defaultSessionKey (sendMsgNoKey.gateway.getD 0) ∈
         (handleFrontendMsg [readyLink] conn2 sendMsgNoKey ("q1".data)
           ("c1".data)).2.1.ownedSessions) ∧
     (∀ fr ∈ (handleFrontendMsg [readyLink] conn0 sendMsgNoKey ("q1".data)
         ("c1".data)).2.2.2,
       fr.sessionKey = some (defaultSessionKey (sendMsgNoKey.gateway.getD 0)))) ∧
    (∀ fr ∈ (handleFrontendMsg [readyLink] conn0 cancelMsgNoKey ("q1".data)
        ("c1".data)).2.2.2,
      fr.sessionKey = some (defaultSessionKey (cancelMsgNoKey.gateway.getD 0))) ∧
    cancelMsgNoKey.gateway.getD 0 = 0 := by
  have hs := default_session_key_substitution [readyLink] conn0 sendMsgNoKey
    ("q1".data) ("c1".data) readyLink (by decide) rfl
  have hc := default_session_key_substitution [readyLink] conn0 cancelMsgNoKey
    ("q1".data) ("c1".data) readyLink (by decide) rfl
  exact ⟨hs.1 rfl rfl rfl, hc.2.1 rfl rfl, hc.2.2 rfl⟩
